import Mathlib

/-!
Shallow embedding of src/src/runtime/hexagon_dma.cpp (Halide Hexagon DMA
runtime): the descriptor free-list pool, the transfer-parameter derivation
done by halide_hexagon_dma_wrapper, the setup/move/wait orchestration, and
the device-handle bookkeeping (prepare-for-copy, crop, wrap-native).

Machine integers are modelled as Nat/Int; the uint16 device-handle offsets
are Nat values reduced mod 2^16 where the C code narrows, and the C `%` on
int is modelled with Int.emod (both agree on the only use here, a
zero-remainder test).  Pointers are modelled as Nat with 0 playing NULL.
External collaborators (the DMA driver queries, the engine pool, the cache
allocator, libc malloc) are parameters supplied by the environment records.
-/

/-- DMA pixel-format enumeration t_eDmaFmt (mini_hexagon_dma.h). -/
inductive t_eDmaFmt where
  | eDmaFmt_RawData
  | eDmaFmt_NV12
  | eDmaFmt_NV12_Y
  | eDmaFmt_NV12_UV
  | eDmaFmt_P010
  | eDmaFmt_P010_Y
  | eDmaFmt_P010_UV
  | eDmaFmt_TP10
  | eDmaFmt_TP10_Y
  | eDmaFmt_TP10_UV
  | eDmaFmt_NV124R
  | eDmaFmt_NV124R_Y
  | eDmaFmt_NV124R_UV
deriving DecidableEq

/-- The four-way chroma-plane disjunction used at lines 212-228, 297-300 and
455-458 of hexagon_dma.cpp. -/
def is_uv_format : t_eDmaFmt → Bool
  | .eDmaFmt_NV12_UV | .eDmaFmt_P010_UV | .eDmaFmt_TP10_UV | .eDmaFmt_NV124R_UV => true
  | _ => false

/-- The four-way luma-plane disjunction used at lines 212-217. -/
def is_y_format : t_eDmaFmt → Bool
  | .eDmaFmt_NV12_Y | .eDmaFmt_P010_Y | .eDmaFmt_TP10_Y | .eDmaFmt_NV124R_Y => true
  | _ => false

/-- Modelled from the spec: halide_hexagon_image_fmt_t, the user-facing image
format enum (declared in HalideRuntimeHexagonDma.h, which is not under src/);
the spec describes it as the closed set of thirteen tags handled by the
conversion switch. -/
inductive halide_hexagon_image_fmt_t where
  | halide_hexagon_fmt_NV12
  | halide_hexagon_fmt_NV12_Y
  | halide_hexagon_fmt_NV12_UV
  | halide_hexagon_fmt_P010
  | halide_hexagon_fmt_P010_Y
  | halide_hexagon_fmt_P010_UV
  | halide_hexagon_fmt_TP10
  | halide_hexagon_fmt_TP10_Y
  | halide_hexagon_fmt_TP10_UV
  | halide_hexagon_fmt_NV124R
  | halide_hexagon_fmt_NV124R_Y
  | halide_hexagon_fmt_NV124R_UV
  | halide_hexagon_fmt_RawData
deriving DecidableEq

/-- The format-conversion switch of halide_hexagon_get_dma_format
(lines 153-185); total over the closed enumeration, so the error default
branch is unreachable here. -/
def halide_hexagon_get_dma_format : halide_hexagon_image_fmt_t → t_eDmaFmt
  | .halide_hexagon_fmt_NV12 => .eDmaFmt_NV12
  | .halide_hexagon_fmt_NV12_Y => .eDmaFmt_NV12_Y
  | .halide_hexagon_fmt_NV12_UV => .eDmaFmt_NV12_UV
  | .halide_hexagon_fmt_P010 => .eDmaFmt_P010
  | .halide_hexagon_fmt_P010_Y => .eDmaFmt_P010_Y
  | .halide_hexagon_fmt_P010_UV => .eDmaFmt_P010_UV
  | .halide_hexagon_fmt_TP10 => .eDmaFmt_TP10
  | .halide_hexagon_fmt_TP10_Y => .eDmaFmt_TP10_Y
  | .halide_hexagon_fmt_TP10_UV => .eDmaFmt_TP10_UV
  | .halide_hexagon_fmt_NV124R => .eDmaFmt_NV124R
  | .halide_hexagon_fmt_NV124R_Y => .eDmaFmt_NV124R_Y
  | .halide_hexagon_fmt_NV124R_UV => .eDmaFmt_NV124R_UV
  | .halide_hexagon_fmt_RawData => .eDmaFmt_RawData

/-- One halide_dimension_t entry: min, extent, stride (int32 fields). -/
structure halide_dimension_t where
  min : Int
  extent : Int
  stride : Int
deriving DecidableEq

/-- The slice of halide_buffer_t the DMA runtime reads: the host pointer,
the dimension count, and the dimension array (modelled as a total index
function; the code only reads dim[0], dim[1], dim[2]). -/
structure halide_buffer_t where
  host : Nat
  dimensions : Int
  dim : Nat → halide_dimension_t

/-- dma_device_handle (lines 19-32).  The four ROI offsets are uint16 in the
source, so they are Nat values kept below 2^16 by the operations that write
them. -/
structure dma_device_handle where
  buffer : Nat
  offset_rdx : Nat
  offset_rdy : Nat
  offset_wrx : Nat
  offset_wry : Nat
  dma_engine : Nat
  frame_width : Int
  frame_height : Int
  frame_stride : Int
  is_ubwc : Bool
  is_write : Bool
  fmt : t_eDmaFmt
deriving DecidableEq

/-- malloc_device_handle (lines 38-53): a fresh handle with every field
zeroed and the format tag defaulted to RawData. -/
def malloc_device_handle : dma_device_handle :=
  { buffer := 0, offset_rdx := 0, offset_rdy := 0, offset_wrx := 0, offset_wry := 0
    dma_engine := 0, frame_width := 0, frame_height := 0, frame_stride := 0
    is_ubwc := false, is_write := false, fmt := .eDmaFmt_RawData }

/-- descriptor_size (line 13). -/
def descriptor_size : Nat := 64

/-- One desc_pool_t node (lines 57-61): the descriptor pointer (Nat, 0 for
NULL) and the used flag. -/
structure desc_pool_t where
  descriptor : Nat
  used : Bool
deriving DecidableEq

/-- The singly linked list hanging off dma_desc_pool, head first. -/
abbrev DescPool := List desc_pool_t

/-- Outcomes of the three allocation calls desc_pool_get makes when it has
to grow the pool: the first malloc for the node, HAP_cache_lock (some base
address on success, none on failure), and the second node malloc. -/
structure AllocEnv where
  node1_ok : Bool
  cache_lock : Option Nat
  node2_ok : Bool
deriving DecidableEq

/-- The free-list walk of desc_pool_get (lines 77-84): return the first node
whose used flag is clear, marking it used in place. -/
def desc_pool_scan : DescPool → Option (Nat × DescPool)
  | [] => none
  | n :: rest =>
    if n.used = false then
      some (n.descriptor, { n with used := true } :: rest)
    else
      match desc_pool_scan rest with
      | some (d, rest2) => some (d, n :: rest2)
      | none => none

/-- The growth path of desc_pool_get (lines 87-118): malloc a node, lock a
cache line of two descriptor units, mark the first used, link the second
(free) when its malloc succeeds, and append at the tail of the list. -/
def desc_pool_grow (env : AllocEnv) (pool : DescPool) : Option Nat × DescPool :=
  if env.node1_ok = false then (none, pool)
  else
    match env.cache_lock with
    | none => (none, pool)
    | some base =>
      let nodes :=
        if env.node2_ok then
          [⟨base, true⟩, ⟨base + descriptor_size, false⟩]
        else
          [(⟨base, true⟩ : desc_pool_t)]
      (some base, pool ++ nodes)

/-- desc_pool_get (lines 72-119): first-fit scan, then growth on miss. -/
def desc_pool_get (env : AllocEnv) (pool : DescPool) : Option Nat × DescPool :=
  match desc_pool_scan pool with
  | some (d, pool2) => (some d, pool2)
  | none => desc_pool_grow env pool

/-- The unconditional full-list walk of desc_pool_put (lines 123-129):
every node whose descriptor matches is marked free. -/
def desc_pool_put_scan (desc : Nat) (pool : DescPool) : DescPool :=
  pool.map (fun n => if n.descriptor = desc then ⟨n.descriptor, false⟩ else n)

/-- desc_pool_put (lines 121-130).  The halide_assert on the descriptor
argument (line 122) is modelled as none for the NULL (= 0) pointer. -/
def desc_pool_put (desc : Nat) (pool : DescPool) : Option DescPool :=
  if desc = 0 then none else some (desc_pool_put_scan desc pool)

/-- The sequence of HAP_cache_unlock calls issued by desc_pool_free
(lines 134-150): it unlocks the descriptor of every node at an even list
position (when non-NULL) and skips the node after it. -/
def desc_pool_free_unlocks : DescPool → List Nat
  | [] => []
  | [n] => if n.descriptor ≠ 0 then [n.descriptor] else []
  | n :: _ :: rest =>
    (if n.descriptor ≠ 0 then [n.descriptor] else []) ++ desc_pool_free_unlocks rest

/-- The sequence of free() calls issued by desc_pool_free on the list nodes,
in order (lines 134-150). -/
def desc_pool_free_freed : DescPool → DescPool
  | [] => []
  | [n] => [n]
  | a :: b :: rest => a :: b :: desc_pool_free_freed rest

/-- One growth event of the pool: either a completed pair of units sharing
one cache-lock allocation, or a lone first unit left when the second node
malloc failed (lines 102-111).  The Bool fields are the current used
flags. -/
inductive growth_event where
  | pair (base : Nat) (u1 u2 : Bool)
  | single (base : Nat) (u : Bool)
deriving DecidableEq

/-- The list nodes a growth event contributed: the pair's second unit lives
at the interior offset base + descriptor_size of the same allocation. -/
def growth_event_nodes : growth_event → DescPool
  | .pair base u1 u2 => [⟨base, u1⟩, ⟨base + descriptor_size, u2⟩]
  | .single base u => [⟨base, u⟩]

/-- The base address of the backing cache-lock allocation of a growth
event. -/
def growth_event_base : growth_event → Nat
  | .pair base _ _ => base
  | .single base _ => base

/-- The pool list produced by a sequence of growth events, oldest first. -/
def growth_pool : List growth_event → DescPool
  | [] => []
  | e :: rest => growth_event_nodes e ++ growth_pool rest

/-- True when every incomplete (single-node) growth event is the last event:
the shape the pool has when at most the most recent growth lost its second
node malloc. -/
def pairs_then_one_tail : List growth_event → Bool
  | [] => true
  | [growth_event.single _ _] => true
  | growth_event.pair _ _ _ :: rest => pairs_then_one_tail rest
  | growth_event.single _ _ :: _ :: _ => false

/-- The stride floor of lines 244-245: the destination dim[1] stride wins
over the recommended intermediate-buffer stride whenever it is larger. -/
def chosen_roi_stride (rec_stride dst_stride : Int) : Int :=
  if dst_stride > rec_stride then dst_stride else rec_stride

/-- The stride validation assert of line 248: the destination dim[1] stride
must leave remainder zero by the chosen ROI stride.  C's int `%` and
Int.emod agree on this zero test. -/
def stride_check_ok (rec_stride dst_stride : Int) : Bool :=
  dst_stride % chosen_roi_stride rec_stride dst_stride == 0

/-- The dimension/layout asserts at lines 208-228, as one predicate over the
format tag and the source buffer. -/
def wrapper_format_asserts_ok (fmt : t_eDmaFmt) (src : halide_buffer_t) : Bool :=
  (if fmt = .eDmaFmt_RawData then decide (src.dimensions ≤ 3) else true) &&
  (if is_y_format fmt then decide (src.dimensions = 2) else true) &&
  (if is_uv_format fmt then
      decide (src.dimensions = 3) && decide ((src.dim 0).stride = 2) &&
      decide ((src.dim 2).stride = 1) && decide ((src.dim 2).min = 0) &&
      decide ((src.dim 2).extent = 2)
    else true)

/-- The ROI origin computed at lines 277-291: direction-specific x and y,
then the raw-planar override of the y component for a 3-dimensional
destination (which rebuilds y from the read offsets whatever the
direction). -/
def roi_origin (dev : dma_device_handle) (src dst : halide_buffer_t) : Int × Int :=
  let x : Int :=
    if dev.is_write then (dev.offset_wrx : Int) * (dst.dim 0).stride
    else ((dev.offset_rdx : Int) + (dst.dim 0).min) * (dst.dim 0).stride
  let y : Int :=
    if dev.is_write then (dev.offset_wry : Int)
    else (dev.offset_rdy : Int) + (dst.dim 1).min
  if dev.fmt = .eDmaFmt_RawData ∧ dst.dimensions = 3 then
    (x, (dev.offset_rdy : Int) + (dst.dim 1).min + (dst.dim 2).min * (src.dim 1).stride)
  else
    (x, y)

/-- The transfer-type tags of the driver interface. -/
inductive t_eDmaWrapper_TransferType where
  | eDmaWrapper_DdrToL2
  | eDmaWrapper_L2ToDdr
deriving DecidableEq

/-- t_StDmaWrapper_DmaTransferSetup as populated at lines 264-311.  The
u16-prefixed fields are kept as mathematical integers: the struct type
lives in mini_hexagon_dma.h, outside src/, and the claims are about the
values the wrapper assigns. -/
structure t_StDmaWrapper_DmaTransferSetup where
  eFmt : t_eDmaFmt
  u16FrameW : Int
  u16FrameH : Int
  u16FrameStride : Int
  u16RoiW : Int
  u16RoiH : Int
  u16RoiStride : Int
  bIsFmtUbwc : Bool
  bUse16BitPaddingInL2 : Int
  pDescBuf : Nat
  pTcmDataBuf : Nat
  pFrameBuf : Nat
  eTransferType : t_eDmaWrapper_TransferType
  u16RoiX : Int
  u16RoiY : Int
deriving DecidableEq

/-- The planning slice of halide_hexagon_dma_wrapper (lines 207-311): the
dimension asserts, the stride floor and its validation assert, the
transfer-setup structure, the raw-planar y override, and the chroma
height/origin inversion.  The recommended walk size (roi_width, roi_height)
and recommended stride are results of the external driver queries at lines
234-236; desc_addr is the descriptor leased at line 251.  An assert failure
is none. -/
def halide_hexagon_dma_wrapper_params (dev : dma_device_handle)
    (src dst : halide_buffer_t) (roi_width roi_height rec_stride : Int)
    (desc_addr : Nat) : Option t_StDmaWrapper_DmaTransferSetup :=
  if wrapper_format_asserts_ok dev.fmt src then
    if stride_check_ok rec_stride (dst.dim 1).stride then
      let origin := roi_origin dev src dst
      let base : t_StDmaWrapper_DmaTransferSetup :=
        { eFmt := dev.fmt
          u16FrameW := dev.frame_width
          u16FrameH := dev.frame_height
          u16FrameStride := dev.frame_stride
          u16RoiW := roi_width
          u16RoiH := roi_height
          u16RoiStride := chosen_roi_stride rec_stride (dst.dim 1).stride
          bIsFmtUbwc := dev.is_ubwc
          bUse16BitPaddingInL2 := 0
          pDescBuf := desc_addr
          pTcmDataBuf := dst.host
          pFrameBuf := dev.buffer
          eTransferType :=
            if dev.is_write then .eDmaWrapper_L2ToDdr else .eDmaWrapper_DdrToL2
          u16RoiX := origin.1
          u16RoiY := origin.2 }
      some
        (if is_uv_format dev.fmt then
          { base with
            u16RoiH := roi_height * 2
            u16RoiY :=
              if dev.is_write then base.u16RoiY * 2
              else (base.u16RoiY - dev.frame_height) * 2 }
        else base)
    else none
  else none

/-- QURT_EOK, the driver success status. -/
def QURT_EOK : Int := 0

/-- halide_error_code_success. -/
def halide_error_code_success : Int := 0

/-- Modelled from the spec: halide_error_code_device_buffer_copy_failed is
one fixed non-success member of the closed halide_error_code_t set declared
in HalideRuntime.h (not under src/); only its identity matters here. -/
def halide_error_code_device_buffer_copy_failed : Int := -42

/-- Results the execution phase receives from its external collaborators:
the engine-pool acquire (line 313), the three driver calls setup/move/wait
(lines 321, 328, 336), and the engine-pool release (line 343). -/
structure EngineEnv where
  engine_alloc : Option Nat
  setup_ret : Int
  move_ret : Int
  wait_ret : Int
  free_ret : Int
deriving DecidableEq

/-- The execution phase of halide_hexagon_dma_wrapper (lines 250-348):
lease a descriptor, acquire an engine instance, drive setup/move/wait, and
on full success return the descriptor to the pool and the engine instance
to its pool, propagating a release failure.  The result is the returned
error code, the pool state at return, and whether the engine instance was
released; none models the halide_assert abort inside desc_pool_put. -/
def wrapper_execute (aenv : AllocEnv) (eenv : EngineEnv) (pool : DescPool) :
    Option (Int × DescPool × Bool) :=
  match desc_pool_get aenv pool with
  | (none, pool1) => some (halide_error_code_device_buffer_copy_failed, pool1, false)
  | (some desc_addr, pool1) =>
    match eenv.engine_alloc with
    | none => some (halide_error_code_device_buffer_copy_failed, pool1, false)
    | some _ =>
      if eenv.setup_ret ≠ QURT_EOK then
        some (halide_error_code_device_buffer_copy_failed, pool1, false)
      else if eenv.move_ret ≠ QURT_EOK then
        some (halide_error_code_device_buffer_copy_failed, pool1, false)
      else if eenv.wait_ret ≠ QURT_EOK then
        some (halide_error_code_device_buffer_copy_failed, pool1, false)
      else
        match desc_pool_put desc_addr pool1 with
        | none => none
        | some pool2 =>
          if eenv.free_ret ≠ halide_error_code_success then
            some (eenv.free_ret, pool2, true)
          else
            some (halide_error_code_success, pool2, true)

/-- dma_prepare_for_copy (lines 447-463): assert the engine handle, store
engine/tiling/format/direction into the device handle, and double the frame
height for the chroma-plane formats.  The halide_assert on dma_engine is
modelled as none for the NULL (= 0) handle. -/
def dma_prepare_for_copy (dev : dma_device_handle) (dma_engine : Nat)
    (is_ubwc : Bool) (fmt : t_eDmaFmt) (is_write : Bool) :
    Option dma_device_handle :=
  if dma_engine = 0 then none
  else
    let dev1 := { dev with dma_engine := dma_engine, is_ubwc := is_ubwc
                           fmt := fmt, is_write := is_write }
    some
      (if is_uv_format dev1.fmt then
        { dev1 with frame_height := dev1.frame_height * 2 }
      else dev1)

/-- halide_hexagon_dma_prepare_for_copy_to_host (lines 469-476): convert the
image format and prepare with the read direction. -/
def halide_hexagon_dma_prepare_for_copy_to_host (dev : dma_device_handle)
    (dma_engine : Nat) (is_ubwc : Bool) (fmt : halide_hexagon_image_fmt_t) :
    Option dma_device_handle :=
  dma_prepare_for_copy dev dma_engine is_ubwc (halide_hexagon_get_dma_format fmt) false

/-- halide_hexagon_dma_prepare_for_copy_to_device (lines 480-487): convert
the image format and prepare with the write direction. -/
def halide_hexagon_dma_prepare_for_copy_to_device (dev : dma_device_handle)
    (dma_engine : Nat) (is_ubwc : Bool) (fmt : halide_hexagon_image_fmt_t) :
    Option dma_device_handle :=
  dma_prepare_for_copy dev dma_engine is_ubwc (halide_hexagon_get_dma_format fmt) true

/-- Narrowing of an int expression into a uint16 field, as happens when the
crop arithmetic is stored back into the handle's offset fields. -/
def u16_of_int (i : Int) : Nat := (i % 65536).toNat

/-- The device handle built by halide_hexagon_dma_device_crop
(lines 669-684) from the parent handle and the two buffers: a fresh
malloc_device_handle whose listed fields are then assigned; the read
offsets keep their zero initialisation. -/
def halide_hexagon_dma_device_crop_dev (src_dev : dma_device_handle)
    (src dst : halide_buffer_t) : dma_device_handle :=
  { malloc_device_handle with
    buffer := src_dev.buffer
    offset_wrx :=
      u16_of_int ((src_dev.offset_wrx : Int) + (dst.dim 0).min - (src.dim 0).min)
    offset_wry :=
      u16_of_int ((src_dev.offset_wry : Int) + (dst.dim 1).min - (src.dim 1).min)
    dma_engine := src_dev.dma_engine
    frame_width := src_dev.frame_width
    frame_height := src_dev.frame_height
    frame_stride := src_dev.frame_stride
    is_ubwc := src_dev.is_ubwc
    is_write := src_dev.is_write
    fmt := src_dev.fmt }

/-- The device handle built by halide_hexagon_dma_device_wrap_native
(lines 740-747): frame geometry is taken from the wrapped buffer's first
two dimensions. -/
def halide_hexagon_dma_device_wrap_native_dev (buf : halide_buffer_t)
    (handle : Nat) : dma_device_handle :=
  { malloc_device_handle with
    buffer := handle
    dma_engine := 0
    frame_width := (buf.dim 0).extent * (buf.dim 0).stride
    frame_height := (buf.dim 1).extent
    frame_stride := (buf.dim 1).stride }

theorem desc_pool_scan_prefix_used (l1 : DescPool) (n : desc_pool_t) (l2 : DescPool)
    (h1 : ∀ m ∈ l1, m.used = true) (h2 : n.used = false) :
    desc_pool_scan (l1 ++ n :: l2) =
      some (n.descriptor, l1 ++ ⟨n.descriptor, true⟩ :: l2) := by
  induction l1 with
  | nil =>
    simp [desc_pool_scan, h2]
  | cons m l1 ih =>
    have hm : m.used = true := h1 m (List.mem_cons_self m l1)
    have ih2 := ih (fun x hx => h1 x (List.mem_cons_of_mem m hx))
    simp [desc_pool_scan, hm, ih2]

theorem desc_pool_scan_all_used (pool : DescPool)
    (h : ∀ m ∈ pool, m.used = true) : desc_pool_scan pool = none := by
  induction pool with
  | nil => rfl
  | cons n rest ih =>
    have hn : n.used = true := h n (List.mem_cons_self n rest)
    have ih2 := ih (fun x hx => h x (List.mem_cons_of_mem n hx))
    simp [desc_pool_scan, hn, ih2]

theorem desc_pool_scan_none_all_used (pool : DescPool)
    (h : desc_pool_scan pool = none) : ∀ m ∈ pool, m.used = true := by
  induction pool with
  | nil => intro m hm; cases hm
  | cons n rest ih =>
    intro m hm
    by_cases hn : n.used = false
    · simp [desc_pool_scan, hn] at h
    · simp [desc_pool_scan, hn] at h
      rcases List.mem_cons.mp hm with hm1 | hm2
      · subst hm1; exact Bool.of_not_eq_false hn
      · cases hrest : desc_pool_scan rest with
        | none => exact ih hrest m hm2
        | some pr => rw [hrest] at h; simp at h

theorem desc_pool_scan_some_split (pool : DescPool) (d : Nat) (p2 : DescPool)
    (h : desc_pool_scan pool = some (d, p2)) :
    ∃ l1 l2, pool = l1 ++ ⟨d, false⟩ :: l2 ∧ (∀ m ∈ l1, m.used = true) ∧
      p2 = l1 ++ ⟨d, true⟩ :: l2 := by
  induction pool generalizing p2 with
  | nil => simp [desc_pool_scan] at h
  | cons n rest ih =>
    by_cases hn : n.used = false
    · simp [desc_pool_scan, hn] at h
      refine ⟨[], rest, ?_, ?_, ?_⟩
      · cases n with
        | mk nd nu =>
          simp at hn h
          simp [hn, h.1]
      · intro m hm; cases hm
      · cases n with
        | mk nd nu => simp at h; simp [h.1, h.2.symm]
    · simp [desc_pool_scan, hn] at h
      cases hrest : desc_pool_scan rest with
      | none => rw [hrest] at h; simp at h
      | some pr =>
        obtain ⟨prd, prr⟩ := pr
        rw [hrest] at h
        simp at h
        obtain ⟨hd, hp⟩ := h
        obtain ⟨l1, l2, hpool, hused, hp2⟩ := ih prr (by rw [hrest, hd])
        refine ⟨n :: l1, l2, by simp [hpool], ?_, by simp [← hp, hp2]⟩
        intro m hm
        rcases List.mem_cons.mp hm with hm1 | hm2
        · subst hm1; exact Bool.of_not_eq_false hn
        · exact hused m hm2

theorem desc_pool_put_scan_not_mem (d : Nat) (l : DescPool)
    (h : ∀ m ∈ l, m.descriptor ≠ d) : desc_pool_put_scan d l = l := by
  induction l with
  | nil => rfl
  | cons n rest ih =>
    have hn : n.descriptor ≠ d := h n (List.mem_cons_self n rest)
    have ih2 := ih (fun x hx => h x (List.mem_cons_of_mem n hx))
    simp only [desc_pool_put_scan, List.map_cons] at *
    simp [hn, ih2]

theorem desc_pool_put_scan_split (d : Nat) (u : Bool) (l1 l2 : DescPool)
    (h1 : ∀ m ∈ l1, m.descriptor ≠ d) (h2 : ∀ m ∈ l2, m.descriptor ≠ d) :
    desc_pool_put_scan d (l1 ++ ⟨d, u⟩ :: l2) = l1 ++ ⟨d, false⟩ :: l2 := by
  have e1 := desc_pool_put_scan_not_mem d l1 h1
  have e2 := desc_pool_put_scan_not_mem d l2 h2
  simp only [desc_pool_put_scan, List.map_append, List.map_cons] at *
  simp [e1, e2]

theorem nodup_descriptor_split (l1 l2 : DescPool) (d : Nat) (u : Bool)
    (h : (((l1 ++ ⟨d, u⟩ :: l2)).map desc_pool_t.descriptor).Nodup) :
    (∀ m ∈ l1, m.descriptor ≠ d) ∧ (∀ m ∈ l2, m.descriptor ≠ d) := by
  simp only [List.map_append, List.map_cons, List.nodup_append] at h
  obtain ⟨h1, h2, hdisj⟩ := h
  constructor
  · intro m hm he
    exact hdisj (List.mem_map_of_mem desc_pool_t.descriptor hm) (by simp [he])
  · intro m hm he
    have := (List.nodup_cons.mp h2).1
    exact this (by rw [← he]; exact List.mem_map_of_mem desc_pool_t.descriptor hm)

theorem desc_pool_get_split (env : AllocEnv) (pool : DescPool) (d : Nat)
    (p1 : DescPool) (h : desc_pool_get env pool = (some d, p1)) :
    ∃ l1 l2, p1 = l1 ++ ⟨d, true⟩ :: l2 ∧ (∀ m ∈ l1, m.used = true) := by
  unfold desc_pool_get at h
  cases hscan : desc_pool_scan pool with
  | some pr =>
    obtain ⟨prd, prr⟩ := pr
    rw [hscan] at h
    simp at h
    obtain ⟨hd, hp⟩ := h
    rw [hd, hp] at hscan
    obtain ⟨l1, l2, _, hused, hp2⟩ := desc_pool_scan_some_split pool d p1 hscan
    exact ⟨l1, l2, hp2, hused⟩
  | none =>
    rw [hscan] at h
    have hall := desc_pool_scan_none_all_used pool hscan
    unfold desc_pool_grow at h
    cases hn1 : env.node1_ok with
    | false => simp [hn1] at h
    | true =>
      simp [hn1] at h
      cases hlock : env.cache_lock with
      | none => rw [hlock] at h; simp at h
      | some base =>
        rw [hlock] at h
        simp at h
        obtain ⟨hd, hp⟩ := h
        cases hn2 : env.node2_ok with
        | true =>
          refine ⟨pool, [⟨d + descriptor_size, false⟩], ?_, hall⟩
          simp [hn2] at hp
          rw [← hp, hd]
        | false =>
          refine ⟨pool, [], ?_, hall⟩
          simp [hn2] at hp
          rw [← hp, hd]

theorem desc_pool_get_of_split (env : AllocEnv) (l1 l2 : DescPool) (d : Nat)
    (hused : ∀ m ∈ l1, m.used = true) :
    desc_pool_get env (l1 ++ ⟨d, false⟩ :: l2) = (some d, l1 ++ ⟨d, true⟩ :: l2) := by
  unfold desc_pool_get
  rw [desc_pool_scan_prefix_used l1 ⟨d, false⟩ l2 hused rfl]

theorem desc_pool_reuse (env env2 : AllocEnv) (pool p1 : DescPool) (d : Nat)
    (hget : desc_pool_get env pool = (some d, p1))
    (hnd : (p1.map desc_pool_t.descriptor).Nodup) :
    desc_pool_get env2 (desc_pool_put_scan d p1) = (some d, p1) := by
  obtain ⟨l1, l2, hp1, hused⟩ := desc_pool_get_split env pool d p1 hget
  subst hp1
  obtain ⟨hd1, hd2⟩ := nodup_descriptor_split l1 l2 d true hnd
  rw [desc_pool_put_scan_split d true l1 l2 hd1 hd2]
  exact desc_pool_get_of_split env2 l1 l2 d hused

theorem desc_pool_put_scan_already_free (d : Nat) (pool : DescPool)
    (h : ∀ n ∈ pool, n.descriptor = d → n.used = false) :
    desc_pool_put_scan d pool = pool := by
  induction pool with
  | nil => rfl
  | cons n rest ih =>
    have ih2 := ih (fun x hx => h x (List.mem_cons_of_mem n hx))
    by_cases hn : n.descriptor = d
    · have hu : n.used = false := h n (List.mem_cons_self n rest) hn
      cases n with
      | mk nd nu =>
        simp at hn hu
        simp only [desc_pool_put_scan, List.map_cons] at *
        simp [hn, hu, ih2]
    · simp only [desc_pool_put_scan, List.map_cons] at *
      simp [hn, ih2]

theorem desc_pool_put_scan_idem (d : Nat) (pool : DescPool) :
    desc_pool_put_scan d (desc_pool_put_scan d pool) = desc_pool_put_scan d pool := by
  induction pool with
  | nil => rfl
  | cons n rest ih =>
    by_cases hn : n.descriptor = d
    · simp only [desc_pool_put_scan, List.map_cons] at *
      simp [hn, ih]
    · simp only [desc_pool_put_scan, List.map_cons] at *
      simp [hn, ih]

/-- C3: desc_pool_get leases the first node in list order whose used flag is
clear, marking exactly that node used; it falls through to the growth path
only when every node is used; and after releasing the leased descriptor the
next lease (under any allocation environment) returns that same descriptor
and restores exactly the same pool, so no new backing allocation happens. -/
theorem claim_C3_first_fit_reuse (env env2 : AllocEnv) (pool : DescPool) :
    (∀ l1 n l2, pool = l1 ++ n :: l2 → (∀ m ∈ l1, m.used = true) →
      n.used = false →
      desc_pool_get env pool = (some n.descriptor, l1 ++ ⟨n.descriptor, true⟩ :: l2)) ∧
    ((∀ m ∈ pool, m.used = true) →
      desc_pool_get env pool = desc_pool_grow env pool) ∧
    (∀ d p1, desc_pool_get env pool = (some d, p1) →
      (p1.map desc_pool_t.descriptor).Nodup → d ≠ 0 →
      desc_pool_put d p1 = some (desc_pool_put_scan d p1) ∧
      desc_pool_get env2 (desc_pool_put_scan d p1) = (some d, p1)) := by
  refine ⟨?_, ?_, ?_⟩
  · intro l1 n l2 hpool hused hn
    rcases n with ⟨nd, nu⟩
    simp at hn
    subst hn
    subst hpool
    exact desc_pool_get_of_split env l1 l2 nd hused
  · intro hall
    unfold desc_pool_get
    rw [desc_pool_scan_all_used pool hall]
  · intro d p1 hget hnd hd0
    exact ⟨by simp [desc_pool_put, hd0],
           desc_pool_reuse env env2 pool p1 d hget hnd⟩

def allocEnv0 : AllocEnv := ⟨true, some 100, true⟩

/-- Witness for C3 at a concrete pool: the second node is the first free
one, it is leased, released, and leased again with the pool unchanged. -/
theorem claim_C3_witness :
    desc_pool_get allocEnv0 [⟨1, true⟩, ⟨2, false⟩] =
      (some 2, [⟨1, true⟩, ⟨2, true⟩]) ∧
    desc_pool_put 2 [⟨1, true⟩, ⟨2, true⟩] =
      some (desc_pool_put_scan 2 [⟨1, true⟩, ⟨2, true⟩]) ∧
    desc_pool_get allocEnv0 (desc_pool_put_scan 2 [⟨1, true⟩, ⟨2, true⟩]) =
      (some 2, [⟨1, true⟩, ⟨2, true⟩]) := by
  have h := claim_C3_first_fit_reuse allocEnv0 allocEnv0 [⟨1, true⟩, ⟨2, false⟩]
  have hfit := h.1 [⟨1, true⟩] ⟨2, false⟩ [] rfl (by decide) rfl
  have hr := h.2.2 2 [⟨1, true⟩, ⟨2, true⟩] hfit (by decide) (by decide)
  exact ⟨hfit, hr.1, hr.2⟩

/-- C7: desc_pool_put with a non-null descriptor rewrites the whole list,
freeing every matching node; it is the identity when the descriptor is
absent or already free, it is idempotent, and the NULL descriptor fails the
assertion. -/
theorem claim_C7_release (d : Nat) (pool : DescPool) :
    (d ≠ 0 → desc_pool_put d pool =
      some (pool.map (fun n => if n.descriptor = d then ⟨n.descriptor, false⟩ else n))) ∧
    ((∀ n ∈ pool, n.descriptor ≠ d) → desc_pool_put_scan d pool = pool) ∧
    ((∀ n ∈ pool, n.descriptor = d → n.used = false) →
      desc_pool_put_scan d pool = pool) ∧
    desc_pool_put_scan d (desc_pool_put_scan d pool) = desc_pool_put_scan d pool ∧
    desc_pool_put 0 pool = none := by
  refine ⟨?_, ?_, ?_, ?_, ?_⟩
  · intro h
    simp [desc_pool_put, h, desc_pool_put_scan]
  · exact desc_pool_put_scan_not_mem d pool
  · exact desc_pool_put_scan_already_free d pool
  · exact desc_pool_put_scan_idem d pool
  · simp [desc_pool_put]

/-- Witness for C7 at concrete pools: releasing 5 frees both nodes matching
5, releasing the absent 7 is the identity, and releasing NULL fails. -/
theorem claim_C7_witness :
    desc_pool_put 5 [⟨5, true⟩, ⟨6, true⟩] = some [⟨5, false⟩, ⟨6, true⟩] ∧
    desc_pool_put_scan 7 [⟨5, true⟩, ⟨6, true⟩] = [⟨5, true⟩, ⟨6, true⟩] ∧
    desc_pool_put 0 [⟨5, true⟩] = none := by
  refine ⟨claim_C7_release 5 [⟨5, true⟩, ⟨6, true⟩] |>.1 (by decide), ?_, ?_⟩
  · exact claim_C7_release 7 [⟨5, true⟩, ⟨6, true⟩] |>.2.1 (by decide)
  · exact claim_C7_release 0 [⟨5, true⟩] |>.2.2.2.2

/-- C8: when every unit is leased and the pool must grow, a cache-lock
failure leaves the list unchanged and reports failure (the freshly malloced
node has been freed), while a failure of only the second node's malloc
still returns the first, locked and marked-used, unit appended alone. -/
theorem claim_C8_growth_failures (env : AllocEnv) (pool : DescPool) (b : Nat)
    (hall : ∀ m ∈ pool, m.used = true) :
    (env.node1_ok = true → env.cache_lock = none →
      desc_pool_get env pool = (none, pool)) ∧
    (env.node1_ok = true → env.cache_lock = some b → env.node2_ok = false →
      desc_pool_get env pool = (some b, pool ++ [⟨b, true⟩])) := by
  have hgrow : desc_pool_get env pool = desc_pool_grow env pool := by
    unfold desc_pool_get
    rw [desc_pool_scan_all_used pool hall]
  constructor
  · intro h1 hlock
    rw [hgrow]
    simp [desc_pool_grow, h1, hlock]
  · intro h1 hlock h2
    rw [hgrow]
    simp [desc_pool_grow, h1, hlock, h2]

/-- Witness for C8 at a concrete fully-used pool: lock failure keeps the
list unchanged; second-malloc failure appends a single used unit. -/
theorem claim_C8_witness :
    desc_pool_get ⟨true, none, true⟩ [⟨3, true⟩] = (none, [⟨3, true⟩]) ∧
    desc_pool_get ⟨true, some 8, false⟩ [⟨3, true⟩] =
      (some 8, [⟨3, true⟩, ⟨8, true⟩]) := by
  refine ⟨?_, ?_⟩
  · exact (claim_C8_growth_failures ⟨true, none, true⟩ [⟨3, true⟩] 8
      (by decide)).1 rfl rfl
  · exact (claim_C8_growth_failures ⟨true, some 8, false⟩ [⟨3, true⟩] 8
      (by decide)).2 rfl rfl rfl

/-- C2 (amended): over pool states built from complete pairs with at most
one trailing single-node growth (the shapes produced when at most the most
recent growth lost its second node malloc), desc_pool_free unlocks exactly
the base pointer of each backing allocation, once each and in order — in
particular never a pair's interior second pointer — and frees every list
node exactly once. -/
theorem claim_C2_amended_teardown (es : List growth_event)
    (hshape : pairs_then_one_tail es = true)
    (hbases : ∀ e ∈ es, growth_event_base e ≠ 0) :
    desc_pool_free_unlocks (growth_pool es) = es.map growth_event_base ∧
    desc_pool_free_freed (growth_pool es) = growth_pool es := by
  induction es with
  | nil => exact ⟨rfl, rfl⟩
  | cons e rest ih =>
    cases e with
    | pair b u1 u2 =>
      have hb : b ≠ 0 := hbases (.pair b u1 u2) (List.mem_cons_self _ _)
      have hshape2 : pairs_then_one_tail rest = true := by
        simpa [pairs_then_one_tail] using hshape
      have ih2 := ih hshape2 (fun x hx => hbases x (List.mem_cons_of_mem _ hx))
      constructor
      · simp [growth_pool, growth_event_nodes, desc_pool_free_unlocks, hb,
              ih2.1, growth_event_base]
      · simp [growth_pool, growth_event_nodes, desc_pool_free_freed, ih2.2]
    | single b u =>
      have hb : b ≠ 0 := hbases (.single b u) (List.mem_cons_self _ _)
      cases rest with
      | nil =>
        constructor
        · simp [growth_pool, growth_event_nodes, desc_pool_free_unlocks, hb,
                growth_event_base]
        · simp [growth_pool, growth_event_nodes, desc_pool_free_freed]
      | cons e2 rest2 =>
        simp [pairs_then_one_tail] at hshape

/-- Witness for C2 (amended) at a concrete pool of one pair followed by one
trailing single: teardown unlocks exactly the two base pointers. -/
theorem claim_C2_witness :
    desc_pool_free_unlocks
        (growth_pool [.pair 100 true false, .single 300 true]) = [100, 300] ∧
    desc_pool_free_freed
        (growth_pool [.pair 100 true false, .single 300 true]) =
      growth_pool [.pair 100 true false, .single 300 true] := by
  have h := claim_C2_amended_teardown [.pair 100 true false, .single 300 true]
    (by decide) (by decide)
  exact ⟨h.1, h.2⟩

/-- Counterexample to C2 as stated: a reachable pool state — first a growth
whose second node malloc failed (a lone node backed by allocation 100),
then a full pair backed by allocation 200 — on which desc_pool_free unlocks
the interior pointer 264 = 200 + descriptor_size of the pair's second node
and never unlocks the pair's own base pointer 200. -/
theorem claim_C2_counterexample :
    desc_pool_get ⟨true, some 100, false⟩ [] = (some 100, [⟨100, true⟩]) ∧
    desc_pool_get ⟨true, some 200, true⟩ [⟨100, true⟩] =
      (some 200, [⟨100, true⟩, ⟨200, true⟩, ⟨264, false⟩]) ∧
    desc_pool_free_unlocks [⟨100, true⟩, ⟨200, true⟩, ⟨264, false⟩] =
      [100, 264] ∧
    264 = 200 + descriptor_size ∧
    200 ∉ desc_pool_free_unlocks [⟨100, true⟩, ⟨200, true⟩, ⟨264, false⟩] := by
  decide

theorem uv_ne_raw (f : t_eDmaFmt) (h : is_uv_format f = true) :
    f ≠ t_eDmaFmt.eDmaFmt_RawData := by
  cases f <;> simp [is_uv_format] at h ⊢

/-- C1 (amended): the destination dim[1] stride wins verbatim over the
recommendation whenever it is larger; planning passes the validation assert
exactly when the destination stride is an integer multiple of the chosen
stride (so with the format asserts satisfied, the wrapper fails exactly on
that condition, and the programmed ROI stride is the chosen stride).  In
particular destination stride 128 against recommendation 64 succeeds with
chosen stride 128. -/
theorem claim_C1_amended_stride_floor (rec_stride dst_stride : Int) :
    (dst_stride > rec_stride →
      chosen_roi_stride rec_stride dst_stride = dst_stride) ∧
    (stride_check_ok rec_stride dst_stride = true ↔
      chosen_roi_stride rec_stride dst_stride ∣ dst_stride) ∧
    (∀ (dev : dma_device_handle) (src dst : halide_buffer_t)
        (roi_w roi_h : Int) (da : Nat),
      wrapper_format_asserts_ok dev.fmt src = true →
      ((halide_hexagon_dma_wrapper_params dev src dst roi_w roi_h rec_stride da).isNone
        ↔ stride_check_ok rec_stride (dst.dim 1).stride = false)) ∧
    (∀ (dev : dma_device_handle) (src dst : halide_buffer_t)
        (roi_w roi_h : Int) (da : Nat) (p : t_StDmaWrapper_DmaTransferSetup),
      halide_hexagon_dma_wrapper_params dev src dst roi_w roi_h rec_stride da = some p →
      p.u16RoiStride = chosen_roi_stride rec_stride (dst.dim 1).stride) := by
  refine ⟨?_, ?_, ?_, ?_⟩
  · intro h
    simp [chosen_roi_stride, h]
  · constructor
    · intro h
      refine Int.dvd_of_emod_eq_zero ?_
      simpa [stride_check_ok] using h
    · intro h
      simp [stride_check_ok, Int.emod_eq_zero_of_dvd h]
  · intro dev src dst roi_w roi_h da ha
    cases hs : stride_check_ok rec_stride (dst.dim 1).stride <;>
      simp [halide_hexagon_dma_wrapper_params, ha, hs]
  · intro dev src dst roi_w roi_h da p hp
    by_cases ha : wrapper_format_asserts_ok dev.fmt src = true
    · by_cases hs : stride_check_ok rec_stride (dst.dim 1).stride = true
      · simp only [halide_hexagon_dma_wrapper_params, ha, hs, if_true,
                   Option.some.injEq] at hp
        cases hu : is_uv_format dev.fmt <;> simp [hu] at hp <;> rw [← hp]
      · simp [halide_hexagon_dma_wrapper_params, ha, hs] at hp
    · simp [halide_hexagon_dma_wrapper_params, ha] at hp

/-- A three-entry dimension array. -/
def dim3 (d0 d1 d2 : halide_dimension_t) : Nat → halide_dimension_t
  | 0 => d0
  | 1 => d1
  | _ => d2

def cdev1 : dma_device_handle :=
  { malloc_device_handle with is_write := true, fmt := .eDmaFmt_RawData }

def csrc1 : halide_buffer_t :=
  ⟨0, 2, dim3 ⟨0, 64, 1⟩ ⟨0, 8, 100⟩ ⟨0, 0, 0⟩⟩

def cdst1 : halide_buffer_t :=
  ⟨99, 2, dim3 ⟨0, 64, 1⟩ ⟨0, 8, 100⟩ ⟨0, 0, 0⟩⟩

/-- Counterexample to C1 as stated: with destination dim[1] stride 100 and
recommended stride 64 the code chooses stride 100, the validation assert
100 % 100 == 0 passes, and planning succeeds — the claim predicted a
validation error for this pair. -/
theorem claim_C1_counterexample :
    chosen_roi_stride 64 100 = 100 ∧
    stride_check_ok 64 100 = true ∧
    Option.map t_StDmaWrapper_DmaTransferSetup.u16RoiStride
      (halide_hexagon_dma_wrapper_params cdev1 csrc1 cdst1 32 8 64 0) =
      some 100 := by
  decide

/-- Witness for C1 (amended) at stride 128 against recommendation 64, and
the fail-iff-not-multiple equivalence at the concrete raw planning above. -/
theorem claim_C1_witness :
    chosen_roi_stride 64 128 = 128 ∧
    (stride_check_ok 64 128 = true ↔ chosen_roi_stride 64 128 ∣ 128) ∧
    ((halide_hexagon_dma_wrapper_params cdev1 csrc1 cdst1 32 8 64 0).isNone ↔
      stride_check_ok 64 (cdst1.dim 1).stride = false) := by
  have h := claim_C1_amended_stride_floor 64 128
  exact ⟨h.1 (by decide), h.2.1,
    h.2.2.1 cdev1 csrc1 cdst1 32 8 0 (by decide)⟩

/-- C4: for every successfully planned chroma-plane (UV) transfer the
programmed ROI height is exactly twice the planned (recommended-walk) ROI
height, the write-direction Y origin is twice the computed Y origin, and
the read-direction Y origin is the computed Y origin minus the frame
height, doubled. -/
theorem claim_C4_chroma_inversion (dev : dma_device_handle)
    (src dst : halide_buffer_t) (roi_w roi_h rec_stride : Int) (da : Nat)
    (p : t_StDmaWrapper_DmaTransferSetup)
    (huv : is_uv_format dev.fmt = true)
    (hp : halide_hexagon_dma_wrapper_params dev src dst roi_w roi_h rec_stride da
      = some p) :
    p.u16RoiH = roi_h * 2 ∧
    (dev.is_write = true → p.u16RoiY = (dev.offset_wry : Int) * 2) ∧
    (dev.is_write = false →
      p.u16RoiY =
        ((dev.offset_rdy : Int) + (dst.dim 1).min - dev.frame_height) * 2) := by
  have hraw : dev.fmt ≠ t_eDmaFmt.eDmaFmt_RawData := uv_ne_raw dev.fmt huv
  by_cases ha : wrapper_format_asserts_ok dev.fmt src = true
  · by_cases hs : stride_check_ok rec_stride (dst.dim 1).stride = true
    · simp only [halide_hexagon_dma_wrapper_params, ha, hs, if_true,
                 Option.some.injEq, huv] at hp
      subst hp
      refine ⟨rfl, ?_, ?_⟩
      · intro hw
        simp [roi_origin, hraw, hw]
      · intro hw
        simp [roi_origin, hraw, hw]
    · simp [halide_hexagon_dma_wrapper_params, ha, hs] at hp
  · simp [halide_hexagon_dma_wrapper_params, ha] at hp

def cdev4 : dma_device_handle :=
  { buffer := 11, offset_rdx := 0, offset_rdy := 2, offset_wrx := 0
    offset_wry := 3, dma_engine := 1, frame_width := 128, frame_height := 16
    frame_stride := 64, is_ubwc := false, is_write := false
    fmt := .eDmaFmt_NV12_UV }

def csrc4 : halide_buffer_t :=
  ⟨0, 3, dim3 ⟨0, 64, 2⟩ ⟨0, 8, 64⟩ ⟨0, 2, 1⟩⟩

def cdst4 : halide_buffer_t :=
  ⟨99, 2, dim3 ⟨0, 64, 1⟩ ⟨1, 8, 64⟩ ⟨0, 0, 0⟩⟩

def cp4 : t_StDmaWrapper_DmaTransferSetup :=
  { eFmt := .eDmaFmt_NV12_UV, u16FrameW := 128, u16FrameH := 16
    u16FrameStride := 64, u16RoiW := 32, u16RoiH := 16, u16RoiStride := 64
    bIsFmtUbwc := false, bUse16BitPaddingInL2 := 0, pDescBuf := 7
    pTcmDataBuf := 99, pFrameBuf := 11
    eTransferType := .eDmaWrapper_DdrToL2, u16RoiX := 0, u16RoiY := -26 }

/-- Witness for C4 at a concrete NV12_UV read plan: planned height 8 is
programmed as 16 and the computed Y origin 3 is rebased to (3 - 16) * 2. -/
theorem claim_C4_witness :
    is_uv_format cdev4.fmt = true ∧
    halide_hexagon_dma_wrapper_params cdev4 csrc4 cdst4 32 8 64 7 = some cp4 ∧
    cp4.u16RoiH = 8 * 2 ∧
    cp4.u16RoiY =
      ((cdev4.offset_rdy : Int) + (cdst4.dim 1).min - cdev4.frame_height) * 2 := by
  have h := claim_C4_chroma_inversion cdev4 csrc4 cdst4 32 8 64 7 cp4
    (by decide) (by decide)
  exact ⟨by decide, by decide, h.1, h.2.2 (by decide)⟩

def cdev5 : dma_device_handle :=
  { buffer := 0, offset_rdx := 0, offset_rdy := 0, offset_wrx := 2
    offset_wry := 5, dma_engine := 0, frame_width := 0, frame_height := 0
    frame_stride := 0, is_ubwc := false, is_write := true
    fmt := .eDmaFmt_RawData }

def csrc5 : halide_buffer_t :=
  ⟨0, 3, dim3 ⟨0, 64, 1⟩ ⟨0, 8, 10⟩ ⟨0, 0, 0⟩⟩

def cdst5 : halide_buffer_t :=
  ⟨7, 3, dim3 ⟨0, 64, 1⟩ ⟨0, 8, 64⟩ ⟨1, 2, 0⟩⟩

/-- Counterexample to C5 as stated: a raw-format write transfer over a
3-dimensional destination.  The claim predicts the Y origin
offset_wry + dim2.min * src.dim1.stride = 5 + 10 = 15, but the raw-planar
override at line 290 rebuilds Y from the read offsets regardless of
direction, programming offset_rdy + dst.dim1.min + dim2.min *
src.dim1.stride = 10. -/
theorem claim_C5_counterexample :
    cdev5.is_write = true ∧
    Option.map t_StDmaWrapper_DmaTransferSetup.u16RoiY
      (halide_hexagon_dma_wrapper_params cdev5 csrc5 cdst5 32 8 64 0) =
      some 10 ∧
    (cdev5.offset_wry : Int) + (cdst5.dim 2).min * (csrc5.dim 1).stride = 15 ∧
    (10 : Int) ≠ 15 := by
  decide

/-- C5 (amended): for every successfully planned non-chroma transfer the
ROI X origin is offset_wrx * dst.dim0.stride for writes and
(offset_rdx + dst.dim0.min) * dst.dim0.stride for reads; the Y origin is
offset_wry for writes and offset_rdy + dst.dim1.min for reads, except that
raw format with a 3-dimensional destination replaces the Y origin — for
both directions — with the read-style base plus the plane fold
dim2.min * src.dim1.stride. -/
theorem claim_C5_amended_roi_origin (dev : dma_device_handle)
    (src dst : halide_buffer_t) (roi_w roi_h rec_stride : Int) (da : Nat)
    (p : t_StDmaWrapper_DmaTransferSetup)
    (huv : is_uv_format dev.fmt = false)
    (hp : halide_hexagon_dma_wrapper_params dev src dst roi_w roi_h rec_stride da
      = some p) :
    (p.u16RoiX =
      if dev.is_write then (dev.offset_wrx : Int) * (dst.dim 0).stride
      else ((dev.offset_rdx : Int) + (dst.dim 0).min) * (dst.dim 0).stride) ∧
    (p.u16RoiY =
      if dev.fmt = t_eDmaFmt.eDmaFmt_RawData ∧ dst.dimensions = 3 then
        (dev.offset_rdy : Int) + (dst.dim 1).min +
          (dst.dim 2).min * (src.dim 1).stride
      else if dev.is_write then (dev.offset_wry : Int)
      else (dev.offset_rdy : Int) + (dst.dim 1).min) := by
  by_cases ha : wrapper_format_asserts_ok dev.fmt src = true
  · by_cases hs : stride_check_ok rec_stride (dst.dim 1).stride = true
    · simp only [halide_hexagon_dma_wrapper_params, ha, hs, if_true,
                 Option.some.injEq, huv] at hp
      simp only [Bool.false_eq_true, if_false] at hp
      subst hp
      constructor
      · by_cases hw : dev.is_write = true <;>
          by_cases hr : dev.fmt = t_eDmaFmt.eDmaFmt_RawData ∧ dst.dimensions = 3 <;>
          simp [roi_origin, hw, hr]
      · by_cases hw : dev.is_write = true <;>
          by_cases hr : dev.fmt = t_eDmaFmt.eDmaFmt_RawData ∧ dst.dimensions = 3 <;>
          simp [roi_origin, hw, hr]
    · simp [halide_hexagon_dma_wrapper_params, ha, hs] at hp
  · simp [halide_hexagon_dma_wrapper_params, ha] at hp

def cp5 : t_StDmaWrapper_DmaTransferSetup :=
  { eFmt := .eDmaFmt_RawData, u16FrameW := 0, u16FrameH := 0
    u16FrameStride := 0, u16RoiW := 32, u16RoiH := 8, u16RoiStride := 64
    bIsFmtUbwc := false, bUse16BitPaddingInL2 := 0, pDescBuf := 0
    pTcmDataBuf := 7, pFrameBuf := 0
    eTransferType := .eDmaWrapper_L2ToDdr, u16RoiX := 2, u16RoiY := 10 }

/-- Witness for C5 (amended) at the concrete raw planar write plan. -/
theorem claim_C5_witness :
    halide_hexagon_dma_wrapper_params cdev5 csrc5 cdst5 32 8 64 0 = some cp5 ∧
    (cp5.u16RoiX =
      if cdev5.is_write then (cdev5.offset_wrx : Int) * (cdst5.dim 0).stride
      else ((cdev5.offset_rdx : Int) + (cdst5.dim 0).min) * (cdst5.dim 0).stride) ∧
    (cp5.u16RoiY =
      if cdev5.fmt = t_eDmaFmt.eDmaFmt_RawData ∧ cdst5.dimensions = 3 then
        (cdev5.offset_rdy : Int) + (cdst5.dim 1).min +
          (cdst5.dim 2).min * (csrc5.dim 1).stride
      else if cdev5.is_write then (cdev5.offset_wry : Int)
      else (cdev5.offset_rdy : Int) + (cdst5.dim 1).min) := by
  have h := claim_C5_amended_roi_origin cdev5 csrc5 cdst5 32 8 64 0 cp5
    (by decide) (by decide)
  exact ⟨by decide, h.1, h.2⟩

/-- C6: once a descriptor is leased and an engine instance acquired, a
non-success status from setup, move or wait makes the wrapper return
DeviceBufferCopyFailed immediately, with the descriptor still marked used
in the pool and the engine instance not released; on full success the
descriptor is returned to the pool, the engine instance is released, and
the engine-release status (failure code, otherwise Success) is the final
result. -/
theorem claim_C6_orchestration (aenv : AllocEnv) (eenv : EngineEnv)
    (pool p1 : DescPool) (d e : Nat)
    (hget : desc_pool_get aenv pool = (some d, p1))
    (hd : d ≠ 0)
    (he : eenv.engine_alloc = some e) :
    (eenv.setup_ret ≠ QURT_EOK →
      wrapper_execute aenv eenv pool =
        some (halide_error_code_device_buffer_copy_failed, p1, false)) ∧
    (eenv.setup_ret = QURT_EOK → eenv.move_ret ≠ QURT_EOK →
      wrapper_execute aenv eenv pool =
        some (halide_error_code_device_buffer_copy_failed, p1, false)) ∧
    (eenv.setup_ret = QURT_EOK → eenv.move_ret = QURT_EOK →
      eenv.wait_ret ≠ QURT_EOK →
      wrapper_execute aenv eenv pool =
        some (halide_error_code_device_buffer_copy_failed, p1, false)) ∧
    (eenv.setup_ret = QURT_EOK → eenv.move_ret = QURT_EOK →
      eenv.wait_ret = QURT_EOK →
      wrapper_execute aenv eenv pool =
        some ((if eenv.free_ret ≠ halide_error_code_success then eenv.free_ret
               else halide_error_code_success),
              desc_pool_put_scan d p1, true)) := by
  refine ⟨?_, ?_, ?_, ?_⟩
  · intro h1
    simp [wrapper_execute, hget, he, h1]
  · intro h1 h2
    simp [wrapper_execute, hget, he, h1, h2]
  · intro h1 h2 h3
    simp [wrapper_execute, hget, he, h1, h2, h3]
  · intro h1 h2 h3
    simp only [wrapper_execute, hget, he, h1, h2, h3]
    by_cases hf : eenv.free_ret = halide_error_code_success <;>
      simp [desc_pool_put, hd, hf]

/-- Witness for C6 at a concrete one-slot pool: a failing setup returns the
copy-failed code leaving the descriptor leased and the engine unreleased; a
fully successful run frees the descriptor, releases the engine and returns
Success. -/
theorem claim_C6_witness :
    wrapper_execute allocEnv0 ⟨some 1, 7, 0, 0, 0⟩ [⟨5, false⟩] =
      some (halide_error_code_device_buffer_copy_failed, [⟨5, true⟩], false) ∧
    wrapper_execute allocEnv0 ⟨some 1, 0, 0, 0, 0⟩ [⟨5, false⟩] =
      some (halide_error_code_success, [⟨5, false⟩], true) := by
  have h1 := claim_C6_orchestration allocEnv0 ⟨some 1, 7, 0, 0, 0⟩
    [⟨5, false⟩] [⟨5, true⟩] 5 1 (by decide) (by decide) rfl
  have h2 := claim_C6_orchestration allocEnv0 ⟨some 1, 0, 0, 0, 0⟩
    [⟨5, false⟩] [⟨5, true⟩] 5 1 (by decide) (by decide) rfl
  exact ⟨h1.1 (by decide), (h2.2.2.2 rfl rfl rfl).trans (by decide)⟩

/-- C9: dma_prepare_for_copy (and through it both prepare-for-copy
variants) rewrites only the engine handle, tiling flag, format, direction
flag and frame height of the attached handle; the frame height is doubled
exactly for the chroma-plane (UV) formats, so preparing a freshly wrapped
buffer with a UV format leaves frame_height — the value the chroma
read-rebase consumes — at twice the buffer's dim[1] extent. -/
theorem claim_C9_prepare_frame_effect (dev : dma_device_handle)
    (engine : Nat) (ub w : Bool) (fmt : t_eDmaFmt)
    (ifmt : halide_hexagon_image_fmt_t) (buf : halide_buffer_t)
    (handle : Nat) (heng : engine ≠ 0) :
    dma_prepare_for_copy dev engine ub fmt w =
      some { dev with dma_engine := engine, is_ubwc := ub, fmt := fmt
                      is_write := w
                      frame_height :=
                        if is_uv_format fmt then dev.frame_height * 2
                        else dev.frame_height } ∧
    halide_hexagon_dma_prepare_for_copy_to_host dev engine ub ifmt =
      dma_prepare_for_copy dev engine ub (halide_hexagon_get_dma_format ifmt)
        false ∧
    halide_hexagon_dma_prepare_for_copy_to_device dev engine ub ifmt =
      dma_prepare_for_copy dev engine ub (halide_hexagon_get_dma_format ifmt)
        true ∧
    (dma_prepare_for_copy
        (halide_hexagon_dma_device_wrap_native_dev buf handle)
        engine ub fmt w).map dma_device_handle.frame_height =
      some (if is_uv_format fmt then (buf.dim 1).extent * 2
            else (buf.dim 1).extent) := by
  refine ⟨?_, rfl, rfl, ?_⟩
  · cases hu : is_uv_format fmt <;>
      simp [dma_prepare_for_copy, heng, hu]
  · cases hu : is_uv_format fmt <;>
      simp [dma_prepare_for_copy, heng, hu,
            halide_hexagon_dma_device_wrap_native_dev, malloc_device_handle]

/-- Witness for C9: preparing a wrapped 64-row buffer for an NV12_UV read
doubles the frame height to 128 and touches no other frame field. -/
theorem claim_C9_witness :
    dma_prepare_for_copy cdev4 9 false t_eDmaFmt.eDmaFmt_NV12_UV false =
      some { cdev4 with dma_engine := 9, is_ubwc := false
                        fmt := t_eDmaFmt.eDmaFmt_NV12_UV, is_write := false
                        frame_height :=
                          if is_uv_format t_eDmaFmt.eDmaFmt_NV12_UV then
                            cdev4.frame_height * 2
                          else cdev4.frame_height } ∧
    (dma_prepare_for_copy
        (halide_hexagon_dma_device_wrap_native_dev csrc1 77)
        9 false t_eDmaFmt.eDmaFmt_NV12_UV false).map
      dma_device_handle.frame_height =
      some (if is_uv_format t_eDmaFmt.eDmaFmt_NV12_UV then
              (csrc1.dim 1).extent * 2
            else (csrc1.dim 1).extent) := by
  have h := claim_C9_prepare_frame_effect cdev4 9 false false
    t_eDmaFmt.eDmaFmt_NV12_UV
    halide_hexagon_image_fmt_t.halide_hexagon_fmt_NV12_UV csrc1 77
    (by decide)
  exact ⟨h.1, h.2.2.2⟩

/-- C10: a cropped device handle shares the parent's frame buffer pointer,
engine handle, frame geometry, flags and format; its write offsets are the
parent's write offsets shifted by the crop's min differences (exactly so
whenever the shifted value fits uint16), while its read offsets are always
the fresh handle's zeros, whatever the parent's read offsets were. -/
theorem claim_C10_crop_offsets (src_dev : dma_device_handle)
    (src dst : halide_buffer_t) :
    (halide_hexagon_dma_device_crop_dev src_dev src dst).buffer = src_dev.buffer ∧
    (halide_hexagon_dma_device_crop_dev src_dev src dst).dma_engine = src_dev.dma_engine ∧
    (halide_hexagon_dma_device_crop_dev src_dev src dst).frame_width = src_dev.frame_width ∧
    (halide_hexagon_dma_device_crop_dev src_dev src dst).frame_height = src_dev.frame_height ∧
    (halide_hexagon_dma_device_crop_dev src_dev src dst).frame_stride = src_dev.frame_stride ∧
    (halide_hexagon_dma_device_crop_dev src_dev src dst).is_ubwc = src_dev.is_ubwc ∧
    (halide_hexagon_dma_device_crop_dev src_dev src dst).is_write = src_dev.is_write ∧
    (halide_hexagon_dma_device_crop_dev src_dev src dst).fmt = src_dev.fmt ∧
    (halide_hexagon_dma_device_crop_dev src_dev src dst).offset_rdx = 0 ∧
    (halide_hexagon_dma_device_crop_dev src_dev src dst).offset_rdy = 0 ∧
    (0 ≤ (src_dev.offset_wrx : Int) + (dst.dim 0).min - (src.dim 0).min →
      (src_dev.offset_wrx : Int) + (dst.dim 0).min - (src.dim 0).min < 65536 →
      ((halide_hexagon_dma_device_crop_dev src_dev src dst).offset_wrx : Int) =
        (src_dev.offset_wrx : Int) + (dst.dim 0).min - (src.dim 0).min) ∧
    (0 ≤ (src_dev.offset_wry : Int) + (dst.dim 1).min - (src.dim 1).min →
      (src_dev.offset_wry : Int) + (dst.dim 1).min - (src.dim 1).min < 65536 →
      ((halide_hexagon_dma_device_crop_dev src_dev src dst).offset_wry : Int) =
        (src_dev.offset_wry : Int) + (dst.dim 1).min - (src.dim 1).min) := by
  refine ⟨rfl, rfl, rfl, rfl, rfl, rfl, rfl, rfl, rfl, rfl, ?_, ?_⟩
  · intro h0 h1
    simp only [halide_hexagon_dma_device_crop_dev, u16_of_int]
    rw [Int.toNat_of_nonneg (Int.emod_nonneg _ (by norm_num)),
        Int.emod_eq_of_lt h0 h1]
  · intro h0 h1
    simp only [halide_hexagon_dma_device_crop_dev, u16_of_int]
    rw [Int.toNat_of_nonneg (Int.emod_nonneg _ (by norm_num)),
        Int.emod_eq_of_lt h0 h1]

def cdev10 : dma_device_handle :=
  { buffer := 21, offset_rdx := 4, offset_rdy := 6, offset_wrx := 3
    offset_wry := 4, dma_engine := 2, frame_width := 64, frame_height := 32
    frame_stride := 64, is_ubwc := true, is_write := true
    fmt := .eDmaFmt_NV12 }

def csrc10 : halide_buffer_t :=
  ⟨0, 2, dim3 ⟨2, 64, 1⟩ ⟨1, 8, 64⟩ ⟨0, 0, 0⟩⟩

def cdst10 : halide_buffer_t :=
  ⟨0, 2, dim3 ⟨6, 32, 1⟩ ⟨9, 4, 64⟩ ⟨0, 0, 0⟩⟩

/-- Witness for C10: a concrete crop shifts the write offsets by the min
differences (3+6-2 = 7, 4+9-1 = 12) and zeroes the read offsets even
though the parent's read offsets are 4 and 6. -/
theorem claim_C10_witness :
    (halide_hexagon_dma_device_crop_dev cdev10 csrc10 cdst10).offset_rdx = 0 ∧
    (halide_hexagon_dma_device_crop_dev cdev10 csrc10 cdst10).offset_rdy = 0 ∧
    ((halide_hexagon_dma_device_crop_dev cdev10 csrc10 cdst10).offset_wrx : Int) =
      (cdev10.offset_wrx : Int) + (cdst10.dim 0).min - (csrc10.dim 0).min ∧
    ((halide_hexagon_dma_device_crop_dev cdev10 csrc10 cdst10).offset_wry : Int) =
      (cdev10.offset_wry : Int) + (cdst10.dim 1).min - (csrc10.dim 1).min := by
  have h := claim_C10_crop_offsets cdev10 csrc10 cdst10
  exact ⟨h.2.2.2.2.2.2.2.2.1, h.2.2.2.2.2.2.2.2.2.1,
    h.2.2.2.2.2.2.2.2.2.2.1 (by decide) (by decide),
    h.2.2.2.2.2.2.2.2.2.2.2 (by decide) (by decide)⟩
